import Mathlib

/-!
Shallow embedding of the realtime synchronization core of the collaborative
document editor (`src/components/DocumentEditor.tsx`).

The component's state hooks become fields of `EditorState`; each event
handler (`handleContentChange`, the auto-save `useEffect`, `saveDocument`,
`loadDocument`, `handleTitleSave`, `addComment`, the `channel.onMessage`
and `channel.onPresence` callbacks, `setupRealtime`) becomes a pure
function from the state it reads to the state it writes, together with the
list of external calls (store writes, channel publishes/subscribes, error
logs) it attempts.  Asynchronous success/failure of store and channel
calls, and the DOM quantities the handlers read (selection offsets, text
length, prompt results, timestamps), are supplied by explicit environment
records, so every branch of the source is reachable and executable.
-/

namespace GoogleDocsClone

/-- The authenticated identity delivered by `blink.auth`; `email` is `""`
when the provider supplies none (the source reads it with `user.email?`). -/
structure User where
  id : String
  email : String
  deriving DecidableEq

/-- The contenteditable surface as the handlers observe it: its serialized
`innerHTML`, whether `window.getSelection()` currently has a range, and
that range's `startOffset`. -/
structure Surface where
  innerHTML : String
  rangeExists : Bool
  caretOffset : Nat
  deriving DecidableEq

/-- One presence-roster entry (`CollaborativeUser` in the source). -/
structure CollaborativeUser where
  userId : String
  displayName : String
  email : String
  cursor : Nat
  lastSeen : Nat
  deriving DecidableEq

/-- A comment record.  `userEmail` models the optional denormalized
`user: { email }` field: the record persisted by `documentComments.create`
carries `none`, while the locally prepended and broadcast copies carry
`some email`. -/
structure Comment where
  id : String
  documentId : String
  userId : String
  content : String
  positionStart : Nat
  positionEnd : Nat
  createdAt : String
  resolved : Bool
  userEmail : Option String
  deriving DecidableEq

/-- The `data` of a channel message; each message type reads one field,
absent fields are `none`. -/
structure MessageData where
  content : Option String
  title : Option String
  comment : Option Comment
  deriving DecidableEq

/-- An incoming channel message: its `type` discriminator, the transport
sender identity `userId`, and its payload. -/
structure Message where
  type : String
  userId : String
  data : MessageData
  deriving DecidableEq

/-- Payload of an outgoing `blink.realtime.publish` call. -/
inductive Payload where
  | contentUpdate (content updatedBy : String)
  | titleUpdate (title updatedBy : String)
  | commentAdded (comment : Comment)
  deriving DecidableEq

/-- An external call attempted by a handler, in program order.  Store
writes, channel publishes and subscribes, store queries and error logs are
all recorded; whether each attempt succeeds is decided by the environment
records below. -/
inductive Effect where
  | listDocuments (whereId : String) (limit : Nat)
  | upsertDocument (id title : String) (content : Option String) (userId : String) (updatedAt : Nat)
  | createComment (c : Comment)
  | publish (topic msgType : String) (payload : Payload)
  | subscribe (topic userId displayName email : String) (cursor : Nat)
  | logError (msg : String)
  deriving DecidableEq

/-- The component's React state hooks plus the single-slot debounce timer.
`saveTimeout = some c` models a scheduled, not-yet-fired auto-save timer
whose callback closure captured content `c` at scheduling time. -/
structure EditorState where
  documentTitle : String
  documentContent : String
  isEditing : Bool
  user : Option User
  isLoading : Bool
  isSaving : Bool
  lastSaved : Option Nat
  collaborators : List CollaborativeUser
  comments : List Comment
  selectedText : String
  saveTimeout : Option String
  surface : Surface
  deriving DecidableEq

/-- DOM facts the remote content-update handler depends on:
`textLengthOf c` is `editorRef.current.textContent.length` after setting
`innerHTML := c`; `hasFirstChild c` is whether `editorRef.current.firstChild`
exists then; `restoreThrows` is whether the `range.setStart`/`addRange`
sequence throws (caught and ignored by the source). -/
structure DomEnv where
  textLengthOf : String → Nat
  hasFirstChild : String → Bool
  restoreThrows : Bool

/-- Outcome of the asynchronous store upsert and channel publish attempted
by a save. -/
structure SaveEnv where
  upsertOk : Bool
  publishOk : Bool
  deriving DecidableEq

/-- Inputs `addComment` reads from the DOM and the environment:
the selection (`window.getSelection()` presence, `rangeCount`, offsets),
the `prompt` result (`none` models the user cancelling), the timestamps
for the fresh id and `createdAt`, and the outcomes of the store create and
the channel publish. -/
structure CommentEnv where
  hasSelection : Bool
  rangeCount : Nat
  startOffset : Nat
  endOffset : Nat
  promptResult : Option String
  nowMs : Nat
  nowIso : String
  createOk : Bool
  publishOk : Bool
  deriving DecidableEq

/-- A stored document record as returned by `blink.db.documents.list`. -/
structure DocRecord where
  id : String
  title : String
  content : String
  deriving DecidableEq

/-- Outcome of the initial `documents.list` query: a result list, or a
rejected promise. -/
inductive LoadResult where
  | ok (docs : List DocRecord)
  | fail
  deriving DecidableEq

/-- The component's initial hook values: title `"Untitled document"`,
empty content, no user, loading, not saving, empty rosters. -/
def initialState : EditorState :=
  { documentTitle := "Untitled document"
    documentContent := ""
    isEditing := false
    user := none
    isLoading := true
    isSaving := false
    lastSaved := none
    collaborators := []
    comments := []
    selectedText := ""
    saveTimeout := none
    surface := { innerHTML := "", rangeExists := false, caretOffset := 0 } }

/-- Presence display name: `user.email?.split(sep)[0] || anonymous`
with separator at-sign; an empty first segment (or missing email) falls
back to the literal used by the source. -/
def displayNameOf (email : String) : String :=
  let base := (email.splitOn "@").headD ""
  if base = "" then "Anonymous" else base

/-- The `loadDocument` function: queries `documents.list` with
`where: { id: documentId }, limit: 1`; if the result list is non-empty it
applies `docs[0]`, reading `doc.title || defaultTitle` and
`doc.content || emptyString`; an empty result changes nothing; a rejected
query is caught and logged. -/
def loadDocument (docId : String) (res : LoadResult) (s : EditorState) :
    EditorState × List Effect :=
  let q := Effect.listDocuments docId 1
  match res with
  | .fail => (s, [q, Effect.logError "Failed to load document:"])
  | .ok [] => (s, [q])
  | .ok (d :: _) =>
      let newTitle := if d.title = "" then "Untitled document" else d.title
      let newContent := if d.content = "" then "" else d.content
      let newHtml := if d.content = "" then "<div>Start typing your document...</div>" else d.content
      ({ s with documentTitle := newTitle
                documentContent := newContent
                surface := { s.surface with innerHTML := newHtml } }, [q])

/-- The `setupRealtime` function up to its channel subscription: an early
return when `user` is null, otherwise one `channel.subscribe` on the topic
derived from the document id, with display name, email and cursor 0; a
rejected subscription is caught and logged. -/
def setupRealtime (docId : String) (subscribeOk : Bool) (s : EditorState) : List Effect :=
  match s.user with
  | none => []
  | some u =>
      let sub := Effect.subscribe ("document-" ++ docId) u.id (displayNameOf u.email) u.email 0
      if subscribeOk then [sub] else [sub, Effect.logError "Failed to setup realtime:"]

/-- Guard of the load/setup `useEffect`: `if (user && documentId)` —
`loadDocument`, `loadComments` and `setupRealtime` run only when it holds. -/
def loadSetupGuard (s : EditorState) (docId : String) : Bool :=
  s.user.isSome && docId != ""

/-- The `saveDocument` function: early return when `user` is null or a
flush is in flight (`isSaving`); otherwise attempts the `documents.upsert`
of `{id, title, content, userId, updatedAt}`; on success records
`lastSaved` and attempts the `content-update` publish; any rejection is
caught and logged; the `finally` block clears `isSaving` on every path
that set it. -/
def saveDocument (docId : String) (env : SaveEnv) (now : Nat) (s : EditorState) :
    EditorState × List Effect :=
  match s.user with
  | none => (s, [])
  | some u =>
      if s.isSaving = true then (s, [])
      else
        let upsertEff := Effect.upsertDocument docId s.documentTitle (some s.documentContent) u.id now
        if env.upsertOk = true then
          let pubEff := Effect.publish ("document-" ++ docId) "content-update"
            (Payload.contentUpdate s.documentContent u.id)
          if env.publishOk = true then
            ({ s with isSaving := false, lastSaved := some now }, [upsertEff, pubEff])
          else
            ({ s with isSaving := false, lastSaved := some now },
             [upsertEff, pubEff, Effect.logError "Failed to save document:"])
        else
          ({ s with isSaving := false }, [upsertEff, Effect.logError "Failed to save document:"])

/-- The `handleTitleSave` function: always leaves title-editing mode; when
a user is present, attempts the title-only `documents.upsert` (no content
field) and then the `title-update` publish, catching and logging any
rejection. -/
def handleTitleSave (docId : String) (env : SaveEnv) (now : Nat) (s : EditorState) :
    EditorState × List Effect :=
  let s0 := { s with isEditing := false }
  match s0.user with
  | none => (s0, [])
  | some u =>
      let upsertEff := Effect.upsertDocument docId s0.documentTitle none u.id now
      if env.upsertOk = true then
        let pubEff := Effect.publish ("document-" ++ docId) "title-update"
          (Payload.titleUpdate s0.documentTitle u.id)
        if env.publishOk = true then (s0, [upsertEff, pubEff])
        else (s0, [upsertEff, pubEff, Effect.logError "Failed to save title:"])
      else (s0, [upsertEff, Effect.logError "Failed to save title:"])

/-- The `handleContentChange` function: reads the surface's serialized
content and stores it in `documentContent` (the surface already shows the
typed content, so its `innerHTML` is the new content). -/
def handleContentChange (s : EditorState) (newContent : String) : EditorState :=
  { s with documentContent := newContent
           surface := { s.surface with innerHTML := newContent } }

/-- The auto-save `useEffect` body, run after `documentContent` changes:
`if (user && documentContent && !isLoading)` clear any pending timer and
schedule a new one whose callback closure captures the current content;
when the guard fails (in particular on empty content) it neither cancels
nor schedules anything. -/
def autoSaveEffect (s : EditorState) : EditorState :=
  if s.user.isSome = true ∧ s.documentContent ≠ "" ∧ s.isLoading = false then
    { s with saveTimeout := some s.documentContent }
  else s

/-- One local edit: the input event updates the state, then the auto-save
effect reacts to the changed content. -/
def editStep (s : EditorState) (newContent : String) : EditorState :=
  autoSaveEffect (handleContentChange s newContent)

/-- A burst of local edits, applied in order. -/
def runEdits (s : EditorState) (edits : List String) : EditorState :=
  edits.foldl editStep s

/-- The debounce timer firing after the quiet period: if a timer is
pending, run `saveDocument` against the state its closure captured (the
content at scheduling time); the flush touches `isSaving`/`lastSaved` but
never writes `documentContent` back, and the fired timer is no longer
pending. -/
def fireTimer (docId : String) (env : SaveEnv) (now : Nat) (s : EditorState) :
    EditorState × List Effect :=
  match s.saveTimeout with
  | none => (s, [])
  | some pending =>
      let r := saveDocument docId env now { s with documentContent := pending }
      ({ r.1 with documentContent := s.documentContent, saveTimeout := none }, r.2)

/-- The `channel.onMessage` callback.  A `content-update` from another
sender with a non-empty content replaces the surface and the in-memory
content, then best-effort restores the caret at
`min(startOffset, textContent.length)` when a range and a first child
exist and the restoration call does not throw.  A `title-update` from
another sender overwrites the title.  A `comment-added` prepends its
comment with no sender check. -/
def onMessage (u : User) (env : DomEnv) (msg : Message) (s : EditorState) : EditorState :=
  let s1 :=
    if msg.type = "content-update" ∧ msg.userId ≠ u.id then
      match msg.data.content with
      | none => s
      | some c =>
          if c = "" then s
          else
            let startOffset := if s.surface.rangeExists = true then s.surface.caretOffset else 0
            let newLen := env.textLengthOf c
            let caretAfter :=
              if s.surface.rangeExists = true ∧ env.hasFirstChild c = true ∧
                  env.restoreThrows = false then
                min startOffset newLen
              else s.surface.caretOffset
            { s with documentContent := c
                     surface := { innerHTML := c
                                  rangeExists := s.surface.rangeExists
                                  caretOffset := caretAfter } }
    else s
  let s2 :=
    if msg.type = "title-update" ∧ msg.userId ≠ u.id then
      match msg.data.title with
      | none => s1
      | some t => { s1 with documentTitle := t }
    else s1
  if msg.type = "comment-added" then
    match msg.data.comment with
    | none => s2
    | some cm => { s2 with comments := cm :: s2.comments }
  else s2

/-- The `channel.onPresence` callback: replaces the whole collaborator
roster with the delivered snapshot minus the local user. -/
def onPresence (u : User) (snapshot : List CollaborativeUser) (s : EditorState) : EditorState :=
  { s with collaborators := snapshot.filter (fun c => c.userId != u.id) }

/-- The `addComment` function: early return without any call unless the
tracked selection text is non-empty, a user is present, the live selection
exists with at least one range, and `prompt` returns a non-empty body;
otherwise builds the comment from the range offsets, attempts the store
create, prepends the email-enriched copy locally, attempts the
`comment-added` publish of that enriched copy, and clears the tracked
selection; a rejection is caught and logged, skipping the remaining
steps. -/
def addComment (docId : String) (env : CommentEnv) (s : EditorState) :
    EditorState × List Effect :=
  if s.selectedText = "" then (s, [])
  else
    match s.user with
    | none => (s, [])
    | some u =>
        if env.hasSelection = false ∨ env.rangeCount = 0 then (s, [])
        else
          match env.promptResult with
          | none => (s, [])
          | some body =>
              if body = "" then (s, [])
              else
                let base : Comment :=
                  { id := "comment-" ++ toString env.nowMs
                    documentId := docId
                    userId := u.id
                    content := body
                    positionStart := env.startOffset
                    positionEnd := env.endOffset
                    createdAt := env.nowIso
                    resolved := false
                    userEmail := none }
                let enriched : Comment := { base with userEmail := some u.email }
                let createEff := Effect.createComment base
                if env.createOk = true then
                  let pubEff := Effect.publish ("document-" ++ docId) "comment-added"
                    (Payload.commentAdded enriched)
                  if env.publishOk = true then
                    ({ s with comments := enriched :: s.comments, selectedText := "" },
                     [createEff, pubEff])
                  else
                    ({ s with comments := enriched :: s.comments },
                     [createEff, pubEff, Effect.logError "Failed to add comment:"])
                else
                  (s, [createEff, Effect.logError "Failed to add comment:"])

/-! Concrete fixtures used by witnesses and counterexamples. -/

/-- A concrete authenticated user. -/
def cUser : User := { id := "user-1", email := "alice@example.com" }

/-- A loaded, authenticated session with everything else at its defaults. -/
def cState : EditorState := { initialState with user := some cUser, isLoading := false }

/-- Both asynchronous save calls succeed. -/
def envAllOk : SaveEnv := { upsertOk := true, publishOk := true }

/-- A simple DOM: plain-text length is the string length, the editor always
has a first child, restoration never throws. -/
def domSimple : DomEnv :=
  { textLengthOf := String.length, hasFirstChild := fun _ => true, restoreThrows := false }

/-! Helper lemmas about single edits and edit bursts. -/

theorem editStep_user (s : EditorState) (c : String) : (editStep s c).user = s.user := by
  unfold editStep autoSaveEffect handleContentChange
  split <;> rfl

theorem editStep_isLoading (s : EditorState) (c : String) :
    (editStep s c).isLoading = s.isLoading := by
  unfold editStep autoSaveEffect handleContentChange
  split <;> rfl

theorem editStep_isSaving (s : EditorState) (c : String) :
    (editStep s c).isSaving = s.isSaving := by
  unfold editStep autoSaveEffect handleContentChange
  split <;> rfl

theorem editStep_documentTitle (s : EditorState) (c : String) :
    (editStep s c).documentTitle = s.documentTitle := by
  unfold editStep autoSaveEffect handleContentChange
  split <;> rfl

theorem editStep_documentContent (s : EditorState) (c : String) :
    (editStep s c).documentContent = c := by
  unfold editStep autoSaveEffect handleContentChange
  split <;> rfl

theorem editStep_saveTimeout_of_pos (s : EditorState) (c : String)
    (hu : s.user.isSome = true) (hc : c ≠ "") (hl : s.isLoading = false) :
    (editStep s c).saveTimeout = some c := by
  unfold editStep autoSaveEffect handleContentChange
  split
  · rfl
  · next h => exact absurd ⟨hu, hc, hl⟩ h

theorem editStep_saveTimeout_of_empty (s : EditorState) :
    (editStep s "").saveTimeout = s.saveTimeout := by
  unfold editStep autoSaveEffect handleContentChange
  split
  · next h => exact absurd rfl h.2.1
  · rfl

theorem editStep_saveTimeout_ne_empty (s : EditorState) (c : String)
    (h : s.saveTimeout ≠ some "") : (editStep s c).saveTimeout ≠ some "" := by
  unfold editStep autoSaveEffect handleContentChange
  split
  · next hcond =>
      intro he
      exact hcond.2.1 (Option.some.inj he)
  · exact h

theorem runEdits_user (s : EditorState) (edits : List String) :
    (runEdits s edits).user = s.user := by
  induction edits generalizing s with
  | nil => rfl
  | cons e rest ih =>
      show (runEdits (editStep s e) rest).user = s.user
      rw [ih, editStep_user]

theorem runEdits_isLoading (s : EditorState) (edits : List String) :
    (runEdits s edits).isLoading = s.isLoading := by
  induction edits generalizing s with
  | nil => rfl
  | cons e rest ih =>
      show (runEdits (editStep s e) rest).isLoading = s.isLoading
      rw [ih, editStep_isLoading]

theorem runEdits_isSaving (s : EditorState) (edits : List String) :
    (runEdits s edits).isSaving = s.isSaving := by
  induction edits generalizing s with
  | nil => rfl
  | cons e rest ih =>
      show (runEdits (editStep s e) rest).isSaving = s.isSaving
      rw [ih, editStep_isSaving]

theorem runEdits_documentTitle (s : EditorState) (edits : List String) :
    (runEdits s edits).documentTitle = s.documentTitle := by
  induction edits generalizing s with
  | nil => rfl
  | cons e rest ih =>
      show (runEdits (editStep s e) rest).documentTitle = s.documentTitle
      rw [ih, editStep_documentTitle]

theorem runEdits_saveTimeout_ne_empty (s : EditorState) (edits : List String)
    (h : s.saveTimeout ≠ some "") : (runEdits s edits).saveTimeout ≠ some "" := by
  induction edits generalizing s with
  | nil => exact h
  | cons e rest ih =>
      show (runEdits (editStep s e) rest).saveTimeout ≠ some ""
      exact ih (editStep s e) (editStep_saveTimeout_ne_empty s e h)

theorem runEdits_append_single (s : EditorState) (xs : List String) (e : String) :
    runEdits s (xs ++ [e]) = editStep (runEdits s xs) e := by
  simp [runEdits, List.foldl_append]

theorem fireTimer_effects_ok (docId : String) (now : Nat) (s : EditorState) (u : User)
    (c : String) (hu : s.user = some u) (hs : s.isSaving = false)
    (hpend : s.saveTimeout = some c) :
    (fireTimer docId envAllOk now s).2 =
      [Effect.upsertDocument docId s.documentTitle (some c) u.id now,
       Effect.publish ("document-" ++ docId) "content-update"
         (Payload.contentUpdate c u.id)] := by
  unfold fireTimer
  rw [hpend]
  simp [saveDocument, hu, hs, envAllOk]

/-! Claim theorems. -/

/-- C2: an incoming `content-update` message whose sender identity equals
the local user's id leaves the whole editor state (surface, in-memory
content, caret) unchanged: the handler never applies it. -/
theorem c2_self_content_update_ignored (u : User) (env : DomEnv) (msg : Message)
    (s : EditorState) (ht : msg.type = "content-update") (hself : msg.userId = u.id) :
    onMessage u env msg s = s := by
  have h1 : ¬(msg.type = "content-update" ∧ msg.userId ≠ u.id) := fun h => h.2 hself
  have h2 : ¬(msg.type = "title-update" ∧ msg.userId ≠ u.id) := by
    intro h
    rw [ht] at h
    exact absurd h.1 (by decide)
  have h3 : ¬(msg.type = "comment-added") := by
    rw [ht]
    decide
  simp [onMessage, h1, h2, h3]

/-- Witness for C2 at a concrete self-originated message. -/
theorem c2_self_content_update_ignored_witness :
    onMessage cUser domSimple
      { type := "content-update", userId := "user-1",
        data := { content := some "<p>B</p>", title := none, comment := none } } cState
      = cState :=
  c2_self_content_update_ignored cUser domSimple
    { type := "content-update", userId := "user-1",
      data := { content := some "<p>B</p>", title := none, comment := none } } cState rfl rfl

/-- C3: after any presence snapshot, the roster equals exactly the snapshot
with the local user's entry removed: every surviving entry comes from the
snapshot and is not the local user, and nothing outside the snapshot
survives. -/
theorem c3_presence_roster (u : User) (snapshot : List CollaborativeUser) (s : EditorState) :
    (onPresence u snapshot s).collaborators = snapshot.filter (fun c => c.userId != u.id) ∧
    ∀ c, c ∈ (onPresence u snapshot s).collaborators ↔ (c ∈ snapshot ∧ c.userId ≠ u.id) := by
  constructor
  · rfl
  · intro c
    simp [onPresence, List.mem_filter]

/-- C4: applying a remote `content-update` from another sender restores the
caret at `min(priorOffset, newTextLength)` — exactly the prior offset when
it fits, clamped to the new text length otherwise — and a throwing
restoration is swallowed, leaving the new content in place and the caret
untouched. -/
theorem c4_caret_restoration (u : User) (env : DomEnv) (msg : Message) (s : EditorState)
    (c : String) (ht : msg.type = "content-update") (hother : msg.userId ≠ u.id)
    (hc : msg.data.content = some c) (hne : c ≠ "") (hr : s.surface.rangeExists = true) :
    (onMessage u env msg s).documentContent = c ∧
    (onMessage u env msg s).surface.innerHTML = c ∧
    (env.hasFirstChild c = true → env.restoreThrows = false →
       (onMessage u env msg s).surface.caretOffset =
         min s.surface.caretOffset (env.textLengthOf c) ∧
       (s.surface.caretOffset ≤ env.textLengthOf c →
          (onMessage u env msg s).surface.caretOffset = s.surface.caretOffset) ∧
       (env.textLengthOf c < s.surface.caretOffset →
          (onMessage u env msg s).surface.caretOffset = env.textLengthOf c)) ∧
    (env.restoreThrows = true →
       (onMessage u env msg s).surface.caretOffset = s.surface.caretOffset ∧
       (onMessage u env msg s).documentContent = c) := by
  have h1 : msg.type = "content-update" ∧ msg.userId ≠ u.id := ⟨ht, hother⟩
  have h2 : ¬(msg.type = "title-update" ∧ msg.userId ≠ u.id) := by
    intro h
    rw [ht] at h
    exact absurd h.1 (by decide)
  have h3 : ¬(msg.type = "comment-added") := by
    rw [ht]
    decide
  simp only [onMessage, if_pos h1, if_neg h2, if_neg h3, hc, hne, if_neg hne, hr]
  refine ⟨?_, ?_, ?_, ?_⟩
  · simp [hne]
  · simp [hne]
  · intro hfc hnt
    simp [hne, hr, hfc, hnt]
    omega
  · intro hthrow
    simp [hne, hthrow]

/-- A remote peer's editing state: a selection range at offset 3 over
content from another sender. -/
def cStateCaret : EditorState :=
  { cState with
    documentContent := "<p>Y</p>"
    surface := { innerHTML := "<p>Y</p>", rangeExists := true, caretOffset := 3 } }

/-- A content update published by a different sender. -/
def cMsgOther : Message :=
  { type := "content-update", userId := "user-2",
    data := { content := some "<p>X</p>", title := none, comment := none } }

/-- Witness for C4 at a concrete remote update: prior caret 3, new text
length 8, caret restored at min 3 8 = 3. -/
theorem c4_caret_restoration_witness :
    (onMessage cUser domSimple cMsgOther cStateCaret).documentContent = "<p>X</p>" ∧
    (onMessage cUser domSimple cMsgOther cStateCaret).surface.innerHTML = "<p>X</p>" ∧
    (domSimple.hasFirstChild "<p>X</p>" = true → domSimple.restoreThrows = false →
       (onMessage cUser domSimple cMsgOther cStateCaret).surface.caretOffset =
         min cStateCaret.surface.caretOffset (domSimple.textLengthOf "<p>X</p>") ∧
       (cStateCaret.surface.caretOffset ≤ domSimple.textLengthOf "<p>X</p>" →
          (onMessage cUser domSimple cMsgOther cStateCaret).surface.caretOffset =
            cStateCaret.surface.caretOffset) ∧
       (domSimple.textLengthOf "<p>X</p>" < cStateCaret.surface.caretOffset →
          (onMessage cUser domSimple cMsgOther cStateCaret).surface.caretOffset =
            domSimple.textLengthOf "<p>X</p>")) ∧
    (domSimple.restoreThrows = true →
       (onMessage cUser domSimple cMsgOther cStateCaret).surface.caretOffset =
         cStateCaret.surface.caretOffset ∧
       (onMessage cUser domSimple cMsgOther cStateCaret).documentContent = "<p>X</p>") :=
  c4_caret_restoration cUser domSimple cMsgOther cStateCaret "<p>X</p>"
    rfl (by decide) rfl (by decide) rfl

/-- C9: the `comment-added` handler prepends the delivered comment with no
sender-identity filter and no deduplication by id: it does so for any
`msg.userId` (in particular the local user's own id), and when the local
list already starts with the same comment (as after the local create), the
echo produces a second entry with the same id. -/
theorem c9_comment_added_prepends (u : User) (env : DomEnv) (msg : Message)
    (s : EditorState) (cm : Comment) (ht : msg.type = "comment-added")
    (hc : msg.data.comment = some cm) :
    (onMessage u env msg s).comments = cm :: s.comments ∧
    ∀ pre, s.comments = cm :: pre → (onMessage u env msg s).comments = cm :: cm :: pre := by
  have h1 : ¬(msg.type = "content-update" ∧ msg.userId ≠ u.id) := by
    intro h
    rw [ht] at h
    exact absurd h.1 (by decide)
  have h2 : ¬(msg.type = "title-update" ∧ msg.userId ≠ u.id) := by
    intro h
    rw [ht] at h
    exact absurd h.1 (by decide)
  have hmain : (onMessage u env msg s).comments = cm :: s.comments := by
    simp [onMessage, h1, h2, ht, hc]
  exact ⟨hmain, fun pre hpre => by rw [hmain, hpre]⟩

/-- The comment created in the concrete scenario. -/
def cComment : Comment :=
  { id := "comment-7", documentId := "doc-1", userId := "user-1",
    content := "fix this", positionStart := 10, positionEnd := 14,
    createdAt := "2024-01-01T00:00:00.000Z", resolved := false,
    userEmail := some "alice@example.com" }

/-- The sender's own `comment-added` broadcast delivered back to it. -/
def cMsgCommentEcho : Message :=
  { type := "comment-added", userId := "user-1",
    data := { content := none, title := none, comment := some cComment } }

/-- Witness for C9: the local list already holds the comment (local create
prepended it); the self-delivered echo duplicates it. -/
theorem c9_comment_added_prepends_witness :
    (onMessage cUser domSimple cMsgCommentEcho
        { cState with comments := [cComment] }).comments = cComment :: cComment :: [] :=
  (c9_comment_added_prepends cUser domSimple cMsgCommentEcho
      { cState with comments := [cComment] } cComment rfl rfl).2 [] rfl

/-- C1 counterexample: in the burst `["<p>A</p>", ""]` the second (last)
edit empties the content, so the auto-save guard neither cancels nor
reschedules the timer; the flush after the quiet period persists and
broadcasts `"<p>A</p>"`, which differs from the content of the last edit
in the burst — refuting the claim that the flushed content always equals
the last edit's content. -/
theorem c1_counterexample :
    ["<p>A</p>", ""].getLast (by decide) = "" ∧
    (runEdits cState ["<p>A</p>", ""]).saveTimeout = some "<p>A</p>" ∧
    (fireTimer "doc-1" envAllOk 7 (runEdits cState ["<p>A</p>", ""])).2 =
      [Effect.upsertDocument "doc-1" "Untitled document" (some "<p>A</p>") "user-1" 7,
       Effect.publish "document-doc-1" "content-update"
         (Payload.contentUpdate "<p>A</p>" "user-1")] ∧
    ("<p>A</p>" : String) ≠ "" := by
  refine ⟨rfl, rfl, rfl, by decide⟩

/-- C1 (amended): for every burst of local edits within one debounce quiet
period by an authenticated, loaded session **whose last edit has non-empty
content**, exactly one timer is pending afterwards, and its flush performs
exactly one `documents.upsert` followed by one `content-update` publish,
both carrying the content of the last edit in the burst. -/
theorem c1_debounce_flush (s : EditorState) (u : User) (edits : List String)
    (docId : String) (now : Nat) (hu : s.user = some u) (hl : s.isLoading = false)
    (hs : s.isSaving = false) (hne : edits ≠ []) (hlast : edits.getLast hne ≠ "") :
    (runEdits s edits).saveTimeout = some (edits.getLast hne) ∧
    (fireTimer docId envAllOk now (runEdits s edits)).2 =
      [Effect.upsertDocument docId s.documentTitle (some (edits.getLast hne)) u.id now,
       Effect.publish ("document-" ++ docId) "content-update"
         (Payload.contentUpdate (edits.getLast hne) u.id)] := by
  have hsplit := List.dropLast_append_getLast hne
  have hrun : runEdits s edits = editStep (runEdits s edits.dropLast) (edits.getLast hne) := by
    conv_lhs => rw [← hsplit]
    exact runEdits_append_single s edits.dropLast (edits.getLast hne)
  have humid : (runEdits s edits.dropLast).user.isSome = true := by
    rw [runEdits_user, hu]
    rfl
  have hlmid : (runEdits s edits.dropLast).isLoading = false := by
    rw [runEdits_isLoading, hl]
  have hstT : (runEdits s edits).saveTimeout = some (edits.getLast hne) := by
    rw [hrun]
    exact editStep_saveTimeout_of_pos _ _ humid hlast hlmid
  refine ⟨hstT, ?_⟩
  have huend : (runEdits s edits).user = some u := by rw [runEdits_user, hu]
  have hsend : (runEdits s edits).isSaving = false := by rw [runEdits_isSaving, hs]
  rw [fireTimer_effects_ok docId now (runEdits s edits) u (edits.getLast hne) huend hsend hstT,
    runEdits_documentTitle]

/-- Witness for C1 (amended) at the concrete two-edit burst ending in
non-empty content. -/
theorem c1_debounce_flush_witness :
    (runEdits cState ["<p>A</p>", "<p>AB</p>"]).saveTimeout =
      some (["<p>A</p>", "<p>AB</p>"].getLast (by decide)) ∧
    (fireTimer "doc-1" envAllOk 7 (runEdits cState ["<p>A</p>", "<p>AB</p>"])).2 =
      [Effect.upsertDocument "doc-1" cState.documentTitle
         (some (["<p>A</p>", "<p>AB</p>"].getLast (by decide))) cUser.id 7,
       Effect.publish ("document-" ++ "doc-1") "content-update"
         (Payload.contentUpdate (["<p>A</p>", "<p>AB</p>"].getLast (by decide)) cUser.id)] :=
  c1_debounce_flush cState cUser ["<p>A</p>", "<p>AB</p>"] "doc-1" 7
    rfl rfl rfl (by decide) (by decide)

/-- A session with an already-scheduled flush for earlier non-empty
content. -/
def cStatePending : EditorState := { cState with saveTimeout := some "<p>A</p>" }

/-- C10: a local edit to empty content leaves the pending debounce timer
exactly as it was (no cancel, no reschedule) while the in-memory content
becomes empty; the still-pending flush then persists and broadcasts the
stale earlier content; and no burst of edits ever leaves an empty-content
timer pending, so empty content is never persisted through the debounce
path. -/
theorem c10_empty_edit (s : EditorState) (docId : String) (now : Nat) :
    (editStep s "").saveTimeout = s.saveTimeout ∧
    (editStep s "").documentContent = "" ∧
    (∀ u c0, s.user = some u → s.isSaving = false → s.saveTimeout = some c0 →
       (fireTimer docId envAllOk now (editStep s "")).2 =
         [Effect.upsertDocument docId s.documentTitle (some c0) u.id now,
          Effect.publish ("document-" ++ docId) "content-update"
            (Payload.contentUpdate c0 u.id)]) ∧
    (∀ edits c, s.saveTimeout = none → (runEdits s edits).saveTimeout = some c → c ≠ "") := by
  refine ⟨editStep_saveTimeout_of_empty s, editStep_documentContent s "", ?_, ?_⟩
  · intro u c0 hu hs hpend
    have hstT : (editStep s "").saveTimeout = some c0 := by
      rw [editStep_saveTimeout_of_empty, hpend]
    have huend : (editStep s "").user = some u := by rw [editStep_user, hu]
    have hsend : (editStep s "").isSaving = false := by rw [editStep_isSaving, hs]
    rw [fireTimer_effects_ok docId now (editStep s "") u c0 huend hsend hstT,
      editStep_documentTitle]
  · intro edits c hnone hsome
    intro hc
    subst hc
    exact runEdits_saveTimeout_ne_empty s edits (by rw [hnone]; exact fun h => by cases h) hsome

/-- Witness for C10: with `"<p>A</p>"` pending, the empty edit leaves the
timer alone and the flush persists the stale content; and the one-edit
burst `["x"]` leaves a non-empty pending content. -/
theorem c10_empty_edit_witness :
    (editStep cStatePending "").saveTimeout = cStatePending.saveTimeout ∧
    (fireTimer "doc-1" envAllOk 7 (editStep cStatePending "")).2 =
      [Effect.upsertDocument "doc-1" cStatePending.documentTitle (some "<p>A</p>") cUser.id 7,
       Effect.publish ("document-" ++ "doc-1") "content-update"
         (Payload.contentUpdate "<p>A</p>" cUser.id)] ∧
    ("x" : String) ≠ "" := by
  refine ⟨(c10_empty_edit cStatePending "doc-1" 7).1,
          (c10_empty_edit cStatePending "doc-1" 7).2.2.1 cUser "<p>A</p>" rfl rfl rfl,
          (c10_empty_edit cState "doc-1" 7).2.2.2 ["x"] "x" rfl rfl⟩

/-- C5: `loadDocument` issues exactly one store query with `limit 1`; a
found record sets the local title and content from its fields (with the
source's falsy fallbacks); an empty result or a failed query changes
nothing — the defaults survive — and failure only adds a log. -/
theorem c5_loadDocument_cases (docId : String) (res : LoadResult) (s : EditorState) :
    (res = .fail → loadDocument docId res s =
       (s, [Effect.listDocuments docId 1, Effect.logError "Failed to load document:"])) ∧
    (res = .ok [] → loadDocument docId res s = (s, [Effect.listDocuments docId 1])) ∧
    (∀ d rest, res = .ok (d :: rest) →
       (loadDocument docId res s).2 = [Effect.listDocuments docId 1] ∧
       (loadDocument docId res s).1.documentTitle =
         (if d.title = "" then "Untitled document" else d.title) ∧
       (loadDocument docId res s).1.documentContent = d.content ∧
       (loadDocument docId res s).1.user = s.user ∧
       (loadDocument docId res s).1.comments = s.comments) := by
  refine ⟨?_, ?_, ?_⟩
  · intro h
    subst h
    rfl
  · intro h
    subst h
    rfl
  · intro d rest h
    subst h
    refine ⟨rfl, rfl, ?_, rfl, rfl⟩
    show (if d.content = "" then "" else d.content) = d.content
    by_cases hdc : d.content = "" <;> simp [hdc]

/-- A stored record for the C5 witness. -/
def cDoc : DocRecord := { id := "doc-1", title := "My Doc", content := "<p>A</p>" }

/-- Witness for C5 at a failed query, an empty result and a found record. -/
theorem c5_loadDocument_cases_witness :
    loadDocument "doc-1" LoadResult.fail cState =
      (cState, [Effect.listDocuments "doc-1" 1, Effect.logError "Failed to load document:"]) ∧
    loadDocument "doc-1" (LoadResult.ok []) cState = (cState, [Effect.listDocuments "doc-1" 1]) ∧
    ((loadDocument "doc-1" (LoadResult.ok [cDoc]) cState).2 = [Effect.listDocuments "doc-1" 1] ∧
     (loadDocument "doc-1" (LoadResult.ok [cDoc]) cState).1.documentTitle =
       (if cDoc.title = "" then "Untitled document" else cDoc.title) ∧
     (loadDocument "doc-1" (LoadResult.ok [cDoc]) cState).1.documentContent = cDoc.content ∧
     (loadDocument "doc-1" (LoadResult.ok [cDoc]) cState).1.user = cState.user ∧
     (loadDocument "doc-1" (LoadResult.ok [cDoc]) cState).1.comments = cState.comments) :=
  ⟨(c5_loadDocument_cases "doc-1" .fail cState).1 rfl,
   (c5_loadDocument_cases "doc-1" (.ok []) cState).2.1 rfl,
   (c5_loadDocument_cases "doc-1" (.ok [cDoc]) cState).2.2 cDoc [] rfl⟩

/-- C6: a debounce flush firing while a previous flush is in flight
(`isSaving`) is skipped entirely — no call, no state change, nothing
queued; every actually started flush clears `isSaving` whatever the
outcome; and a failed upsert produces no publish, leaves `lastSaved` and
the timer slot untouched, and schedules no retry. -/
theorem c6_saveDocument_guard (docId : String) (env : SaveEnv) (now : Nat) (s : EditorState) :
    (s.isSaving = true → saveDocument docId env now s = (s, [])) ∧
    (∀ u, s.user = some u → s.isSaving = false →
       (saveDocument docId env now s).1.isSaving = false ∧
       (env.upsertOk = false →
          (saveDocument docId env now s).2 =
            [Effect.upsertDocument docId s.documentTitle (some s.documentContent) u.id now,
             Effect.logError "Failed to save document:"] ∧
          (saveDocument docId env now s).1 = { s with isSaving := false })) := by
  constructor
  · intro h
    unfold saveDocument
    cases hus : s.user with
    | none => rfl
    | some u => simp [h]
  · intro u hu hs
    unfold saveDocument
    rw [hu]
    constructor
    · by_cases hup : env.upsertOk = true <;> by_cases hpub : env.publishOk = true <;>
        simp [hs, hup, hpub]
    · intro hupf
      simp [hs, hupf]

/-- Save environment in which the upsert is rejected. -/
def envUpsertFail : SaveEnv := { upsertOk := false, publishOk := true }

/-- A session with a flush already in flight. -/
def cStateSaving : EditorState := { cState with isSaving := true }

/-- Witness for C6: the busy session skips the flush; the idle session's
failed flush emits the upsert attempt and a log, no publish, and clears
`isSaving` without touching anything else. -/
theorem c6_saveDocument_guard_witness :
    saveDocument "doc-1" envUpsertFail 7 cStateSaving = (cStateSaving, []) ∧
    (saveDocument "doc-1" envUpsertFail 7 cState).1.isSaving = false ∧
    (saveDocument "doc-1" envUpsertFail 7 cState).2 =
      [Effect.upsertDocument "doc-1" cState.documentTitle (some cState.documentContent) cUser.id 7,
       Effect.logError "Failed to save document:"] ∧
    (saveDocument "doc-1" envUpsertFail 7 cState).1 = { cState with isSaving := false } := by
  refine ⟨(c6_saveDocument_guard "doc-1" envUpsertFail 7 cStateSaving).1 rfl, ?_, ?_, ?_⟩
  · exact ((c6_saveDocument_guard "doc-1" envUpsertFail 7 cState).2 cUser rfl rfl).1
  · exact (((c6_saveDocument_guard "doc-1" envUpsertFail 7 cState).2 cUser rfl rfl).2 rfl).1
  · exact (((c6_saveDocument_guard "doc-1" envUpsertFail 7 cState).2 cUser rfl rfl).2 rfl).2

/-- C7: with a null session identity every write/broadcast/join path is
inert: the auto-save flush, the title commit and the comment creation
perform no store write and no publish and change nothing (beyond leaving
title-editing mode), the realtime setup subscribes to nothing, and the
load/setup effect's guard fails so document and comment loads never run. -/
theorem c7_null_user_inert (docId : String) (envS : SaveEnv) (envC : CommentEnv)
    (now : Nat) (subOk : Bool) (s : EditorState) (h : s.user = none) :
    saveDocument docId envS now s = (s, []) ∧
    handleTitleSave docId envS now s = ({ s with isEditing := false }, []) ∧
    addComment docId envC s = (s, []) ∧
    setupRealtime docId subOk s = [] ∧
    loadSetupGuard s docId = false := by
  refine ⟨?_, ?_, ?_, ?_, ?_⟩
  · unfold saveDocument
    rw [h]
  · simp [handleTitleSave, h]
  · unfold addComment
    split
    · rfl
    · rw [h]
  · unfold setupRealtime
    rw [h]
  · simp [loadSetupGuard, h]

/-- Comment-creation environment for witnesses: selection `[10,14]`,
prompt answered `"fix this"`, both asynchronous calls succeed. -/
def cCommentEnv : CommentEnv :=
  { hasSelection := true, rangeCount := 1, startOffset := 10, endOffset := 14,
    promptResult := some "fix this", nowMs := 7,
    nowIso := "2024-01-01T00:00:00.000Z", createOk := true, publishOk := true }

/-- Witness for C7 at the signed-out initial state. -/
theorem c7_null_user_inert_witness :
    saveDocument "doc-1" envAllOk 7 initialState = (initialState, []) ∧
    handleTitleSave "doc-1" envAllOk 7 initialState =
      ({ initialState with isEditing := false }, []) ∧
    addComment "doc-1" cCommentEnv initialState = (initialState, []) ∧
    setupRealtime "doc-1" true initialState = [] ∧
    loadSetupGuard initialState "doc-1" = false :=
  c7_null_user_inert "doc-1" envAllOk cCommentEnv 7 true initialState rfl

/-- C8: `addComment` is a no-op without a non-empty tracked selection or
without a user; with selection offsets `[s,e]`, a non-empty prompted body
and both calls succeeding it performs exactly one store create of the
comment — `positionStart = s`, `positionEnd = e`, `resolved = false`, a
fresh id and creation timestamp — followed by exactly one `comment-added`
publish of the email-enriched copy, prepends that copy to the local list,
and clears the tracked selection. -/
theorem c8_addComment (docId : String) (env : CommentEnv) (s : EditorState) :
    (s.selectedText = "" → addComment docId env s = (s, [])) ∧
    (s.user = none → addComment docId env s = (s, [])) ∧
    (∀ u body, s.user = some u → s.selectedText ≠ "" → env.hasSelection = true →
       env.rangeCount ≠ 0 → env.promptResult = some body → body ≠ "" →
       env.createOk = true → env.publishOk = true →
       addComment docId env s =
         ({ s with
              comments :=
                { id := "comment-" ++ toString env.nowMs, documentId := docId,
                  userId := u.id, content := body, positionStart := env.startOffset,
                  positionEnd := env.endOffset, createdAt := env.nowIso,
                  resolved := false, userEmail := some u.email } :: s.comments
              selectedText := "" },
          [Effect.createComment
             { id := "comment-" ++ toString env.nowMs, documentId := docId,
               userId := u.id, content := body, positionStart := env.startOffset,
               positionEnd := env.endOffset, createdAt := env.nowIso,
               resolved := false, userEmail := none },
           Effect.publish ("document-" ++ docId) "comment-added"
             (Payload.commentAdded
               { id := "comment-" ++ toString env.nowMs, documentId := docId,
                 userId := u.id, content := body, positionStart := env.startOffset,
                 positionEnd := env.endOffset, createdAt := env.nowIso,
                 resolved := false, userEmail := some u.email })])) := by
  refine ⟨?_, ?_, ?_⟩
  · intro h
    unfold addComment
    simp [h]
  · intro h
    unfold addComment
    split
    · rfl
    · rw [h]
  · intro u body hu hsel hhs hrc hpr hbody hcreate hpub
    unfold addComment
    rw [hu]
    simp [hsel, hhs, hrc, hpr, hbody, hcreate, hpub]

/-- A session with text selected, ready to comment. -/
def cStateSelected : EditorState := { cState with selectedText := "abcd" }

/-- Witness for C8: the concrete scenario of the spec — selection
`[10,14]`, body `"fix this"` — yields one create, one publish, the local
prepend, and a cleared selection. -/
theorem c8_addComment_witness :
    addComment "doc-1" cCommentEnv cStateSelected =
      ({ cStateSelected with
           comments :=
             { id := "comment-" ++ toString cCommentEnv.nowMs, documentId := "doc-1",
               userId := cUser.id, content := "fix this",
               positionStart := cCommentEnv.startOffset, positionEnd := cCommentEnv.endOffset,
               createdAt := cCommentEnv.nowIso, resolved := false,
               userEmail := some cUser.email } :: cStateSelected.comments
           selectedText := "" },
       [Effect.createComment
          { id := "comment-" ++ toString cCommentEnv.nowMs, documentId := "doc-1",
            userId := cUser.id, content := "fix this",
            positionStart := cCommentEnv.startOffset, positionEnd := cCommentEnv.endOffset,
            createdAt := cCommentEnv.nowIso, resolved := false, userEmail := none },
        Effect.publish ("document-" ++ "doc-1") "comment-added"
          (Payload.commentAdded
            { id := "comment-" ++ toString cCommentEnv.nowMs, documentId := "doc-1",
              userId := cUser.id, content := "fix this",
              positionStart := cCommentEnv.startOffset, positionEnd := cCommentEnv.endOffset,
              createdAt := cCommentEnv.nowIso, resolved := false,
              userEmail := some cUser.email })]) :=
  (c8_addComment "doc-1" cCommentEnv cStateSelected).2.2 cUser "fix this"
    rfl (by decide) rfl (by decide) rfl (by decide) rfl rfl

end GoogleDocsClone
